import Mathlib

/-!
Verification development for the generator.handlebars generation pipeline.

Shallow embedding of `lib/Template.js`, `lib/TemplateSettings.js`,
`lib/TemplateResult.js` and the parts of `lib/Helpers.js` they use.

Modelling conventions:
* JavaScript values are modelled by the inductive `Value` (JSON-style data).
  Numbers are modelled as integers: the condition-expression grammar of the
  settings files uses plain numeric literals, and no claim under test depends
  on non-integer arithmetic.  Object property tables are association lists in
  insertion order with unique keys (JS objects cannot hold duplicate keys).
* External services that the pipeline treats as black boxes - the compiled
  Handlebars renderer, the RegExp engine and `process.env` - are passed in as
  a `Runtime` record of total functions, mirroring the spec's "render(context)
  -> string" black-box treatment.  A compiled template is carried as a
  function `Value -> String`.
* `console.warn` diagnostics of `evaluateCondition` are modelled as an
  explicit list of warning strings returned alongside the boolean.
* Thrown JS exceptions are modelled by the `GenOutcome.thrown` constructor of
  `Template.generate`'s result; mutations of the template's fields are
  modelled by returning an updated `Template` record.
-/

namespace GenHbs

/-- JSON-style JavaScript value.  Numbers are modelled as integers. -/
inductive Value where
  | vNull
  | vUndefined
  | vBool (b : Bool)
  | vNum (n : Int)
  | vStr (s : String)
  | vArr (elems : List Value)
  | vObj (fields : List (String × Value))

/-- Strict `=== null` test. -/
def Value.isNull : Value → Bool
  | .vNull => true
  | _ => false

/-- Strict `=== undefined` test. -/
def Value.isUndefined : Value → Bool
  | .vUndefined => true
  | _ => false

/-- JavaScript truthiness (`!!v`).  NaN is not representable in the model. -/
def jsTruthy : Value → Bool
  | .vNull => false
  | .vUndefined => false
  | .vBool b => b
  | .vNum n => n != 0
  | .vStr s => !s.isEmpty
  | .vArr _ => true
  | .vObj _ => true

/-- Characters of the two-ended whitespace trim (JS `String.prototype.trim`). -/
def trimChars (cs : List Char) : List Char :=
  (((cs.dropWhile Char.isWhitespace).reverse.dropWhile Char.isWhitespace).reverse)

/-- JS `s.trim()`. -/
def jsTrim (s : String) : String :=
  String.mk (trimChars s.data)

/-- JS `s.toLowerCase()` (ASCII as used by operator tokens). -/
def toLowerStr (s : String) : String :=
  String.mk (s.data.map Char.toLower)

/-- JS `p.startsWith(q)`. -/
def jsStartsWith (s p : String) : Bool :=
  p.data.isPrefixOf s.data

/-- JS `p.endsWith(q)`. -/
def jsEndsWith (s p : String) : Bool :=
  p.data.isSuffixOf s.data

/-- Contiguous-sublist test used by `jsIncludes`. -/
def listIsInfix (sub : List Char) : List Char → Bool
  | [] => sub.isEmpty
  | c :: rest => sub.isPrefixOf (c :: rest) || listIsInfix sub rest

/-- JS `s.includes(sub)`. -/
def jsIncludes (s sub : String) : Bool :=
  sub.isEmpty || listIsInfix sub.data s.data

/-- JS `s.slice(n)` (drop the first `n` characters). -/
def jsDrop (s : String) (n : Nat) : String :=
  String.mk (s.data.drop n)

/-- Splitting worker: splits `cs` on each occurrence of the (non-empty)
separator `sep`.  The fuel argument only serves termination; it is always
given at least `cs.length + 1`. -/
def splitChars : Nat → List Char → List Char → List Char → List (List Char)
  | 0, _, cs, acc => [acc.reverse ++ cs]
  | _ + 1, _, [], acc => [acc.reverse]
  | fuel + 1, sep, c :: rest, acc =>
    if sep.isPrefixOf (c :: rest) ∧ sep ≠ [] then
      acc.reverse :: splitChars fuel sep ((c :: rest).drop sep.length) []
    else
      splitChars fuel sep rest (c :: acc)

/-- JS `s.split(sep)` for a string separator.  An empty separator splits into
single characters, exactly as in JS. -/
def jsSplit (s sep : String) : List String :=
  if sep.isEmpty then s.data.map (fun c => String.mk [c])
  else (splitChars (s.data.length + 1) sep.data s.data []).map String.mk

/-- JS `s.split(/\s+/)` applied to an already trimmed string: whitespace runs
separate the tokens; the empty string yields `[""]`. -/
def jsSplitWs (s : String) : List String :=
  let toks := ((s.data.splitOnP Char.isWhitespace).filter (fun t => t ≠ [])).map String.mk
  if toks.isEmpty then [""] else toks

/-- JS `s.replace(tgt, repl)` with a string pattern: replaces the first
occurrence only.  (Replacement-pattern directives such as `$&` are not
modelled; no call site uses them.)  Fuel only serves termination. -/
def replaceFirstAux : Nat → List Char → List Char → List Char → List Char → List Char
  | fuel, tgt, repl, cs, acc =>
    if tgt.isPrefixOf cs then acc.reverse ++ repl ++ cs.drop tgt.length
    else
      match fuel, cs with
      | _, [] => acc.reverse
      | 0, cs => acc.reverse ++ cs
      | fuel + 1, c :: rest => replaceFirstAux fuel tgt repl rest (c :: acc)

/-- JS `s.replace(tgt, repl)` (first occurrence). -/
def jsReplaceFirst (s tgt repl : String) : String :=
  String.mk (replaceFirstAux (s.data.length + 1) tgt.data repl.data s.data [])

/-- Parses a non-empty all-digit character list as a natural number. -/
def parseDigits (cs : List Char) : Option Nat :=
  match cs with
  | [] => none
  | _ =>
    if cs.all Char.isDigit then
      some (cs.foldl (fun n c => n * 10 + (c.toNat - '0'.toNat)) 0)
    else none

/-- JS `Number(s)` restricted to the integer fragment of the model: optional
sign followed by digits; the empty (or all-whitespace) string is `0`; anything
else is NaN (`none`). -/
def strToNumber (s : String) : Option Int :=
  match trimChars s.data with
  | [] => some 0
  | '-' :: rest => (parseDigits rest).map (fun n => -(n : Int))
  | '+' :: rest => (parseDigits rest).map (fun n => (n : Int))
  | cs => (parseDigits cs).map (fun n => (n : Int))

mutual

/-- JS `String(v)` stringification. -/
def jsToString : Value → String
  | .vNull => "null"
  | .vUndefined => "undefined"
  | .vBool b => if b then "true" else "false"
  | .vNum n => toString n
  | .vStr s => s
  | .vObj _ => "[object Object]"
  | .vArr xs => String.intercalate "," (jsToStringList xs)

/-- Array element stringification: `null`/`undefined` elements become the
empty string inside `Array.prototype.toString`. -/
def jsToStringList : List Value → List String
  | [] => []
  | .vNull :: rest => "" :: jsToStringList rest
  | .vUndefined :: rest => "" :: jsToStringList rest
  | v :: rest => jsToString v :: jsToStringList rest

end

/-- ECMAScript `ToPrimitive` for objects and arrays (string result); other
values are already primitive. -/
def toPrimitiveStr : Value → Value
  | .vArr xs => .vStr (jsToString (.vArr xs))
  | .vObj _ => .vStr "[object Object]"
  | v => v

/-- ECMAScript `ToNumber` on primitives (integer fragment); `none` is NaN. -/
def toNumber : Value → Option Int
  | .vNull => some 0
  | .vUndefined => none
  | .vBool b => some (if b then 1 else 0)
  | .vNum n => some n
  | .vStr s => strToNumber s
  | .vArr xs => strToNumber (jsToString (.vArr xs))
  | .vObj _ => strToNumber "[object Object]"

/-- Loose equality on primitives after `ToPrimitive`: two strings compare as
strings, otherwise both sides go through `ToNumber` (NaN compares unequal). -/
def looseEqPrim (a b : Value) : Bool :=
  match a, b with
  | .vStr x, .vStr y => x = y
  | a, b =>
    match toNumber a, toNumber b with
    | some x, some y => x = y
    | _, _ => false

/-- JS loose equality `==`.  Distinct objects/arrays compare by reference in
JS; the condition evaluator only ever compares a context value against a
primitive literal, so object-object comparison is modelled as `false`. -/
def looseEq (a b : Value) : Bool :=
  match a, b with
  | .vNull, .vNull => true
  | .vNull, .vUndefined => true
  | .vUndefined, .vNull => true
  | .vUndefined, .vUndefined => true
  | .vNull, _ => false
  | _, .vNull => false
  | .vUndefined, _ => false
  | _, .vUndefined => false
  | .vObj _, .vObj _ => false
  | .vObj _, .vArr _ => false
  | .vArr _, .vObj _ => false
  | .vArr _, .vArr _ => false
  | a, b => looseEqPrim (toPrimitiveStr a) (toPrimitiveStr b)

/-- The ECMAScript abstract relational comparison `a < b`; `none` when a NaN
is involved (in which case every derived comparison is false). -/
def jsLess (a b : Value) : Option Bool :=
  match toPrimitiveStr a, toPrimitiveStr b with
  | .vStr x, .vStr y => some (decide (x < y))
  | pa, pb =>
    match toNumber pa, toNumber pb with
    | some x, some y => some (decide (x < y))
    | _, _ => none

/-- Association-list lookup for object fields. -/
def lookupField : List (String × Value) → String → Option Value
  | [], _ => none
  | kv :: rest, key => if kv.1 = key then some kv.2 else lookupField rest key

/-- Sets a field, overwriting an existing binding in place (object literals
with repeated computed keys and plain property assignment both behave this
way in JS). -/
def setField : List (String × Value) → String → Value → List (String × Value)
  | [], key, x => [(key, x)]
  | kv :: rest, key, x =>
    if kv.1 = key then (key, x) :: rest else kv :: setField rest key x

/-- Parses a canonical array-index string (digits only). -/
def parseIndex (s : String) : Option Nat :=
  parseDigits s.data

/-- JS property access `v[key]` for the data reachable from a model: object
fields, array `length`/indices, string `length`/indices; every other access
yields `undefined`.  (Accessing a property of `null`/`undefined` throws in
JS; every call site guards against that first.) -/
def getProp (v : Value) (key : String) : Value :=
  match v with
  | .vObj fields => (lookupField fields key).getD .vUndefined
  | .vArr xs =>
    if key = "length" then .vNum xs.length
    else
      match parseIndex key with
      | some i => xs.getD i .vUndefined
      | none => .vUndefined
  | .vStr s =>
    if key = "length" then .vNum s.data.length
    else
      match parseIndex key with
      | some i =>
        match s.data.get? i with
        | some c => .vStr (String.mk [c])
        | none => .vUndefined
      | none => .vUndefined
  | _ => .vUndefined

/-- Property assignment `v[key] = x`.  On primitives this is a silent no-op
(non-strict JS); named properties on arrays are not modelled (no call site
sets one). -/
def setProp (v : Value) (key : String) (x : Value) : Value :=
  match v with
  | .vObj fields => .vObj (setField fields key x)
  | other => other

/-- Spread `{ ...base, ...v }` merging `v`'s own enumerable entries over
`base`: object fields; array and string spreads produce index keys; other
primitives contribute nothing. -/
def spreadFields (base : List (String × Value)) : Value → List (String × Value)
  | .vObj fs => fs.foldl (fun acc kv => setField acc kv.1 kv.2) base
  | .vArr xs =>
    (xs.enum).foldl (fun acc p => setField acc (toString p.1) p.2) base
  | .vStr s =>
    (s.data.enum).foldl
      (fun acc p => setField acc (toString p.1) (.vStr (String.mk [p.2]))) base
  | _ => base

/-- `Helpers.isEmpty(value)`: `!value || value.length === 0`. -/
def jsIsEmptyVal (v : Value) : Bool :=
  !jsTruthy v ||
    (match v with
     | .vStr s => s.isEmpty
     | .vArr xs => xs.isEmpty
     | _ => false)

/-- JS truthiness of a nullable string (`null` and `""` are falsy). -/
def optTruthy : Option String → Bool
  | some s => !s.isEmpty
  | none => false

/-!  ## External services (`Runtime`)

The pipeline consumes three black boxes: the RegExp engine, the Handlebars
compiler/renderer, and `process.env`.  They are modelled as total functions;
the throw of `new RegExp` on an invalid pattern and of `Handlebars.compile`
on malformed syntax are outside the model (the spec treats rendering as a
black-box `render(context) -> string` service).
-/

/-- Result of `RegExp.prototype.exec`: the full match text (`match[0]`) and
the `FileName` named capture group - the only group any call site reads. -/
structure RegexMatch where
  fullMatch : String
  groupFileName : Option String

/-- External services: `regexExec pat input` models
`new RegExp(pat).exec(input)`, `hbRender src model` models
`Handlebars.compile(src)(model)`, and `env` models `process.env`. -/
structure Runtime where
  regexExec : String → String → Option RegexMatch
  hbRender : String → Value → String
  env : String → Option String

/-!  ## `TemplateSettings` (lib/TemplateSettings.js) -/

/-- The raw parsed settings JSON handed to the `TemplateSettings`
constructor; absent keys are `none`.  Fields carry their documented types. -/
structure InitialData where
  Target : Option String := none
  TargetItem : Option String := none
  TargetProperty : Option String := none
  ModelProperty : Option String := none
  TargetItemNameProperty : Option String := none
  ExportPath : Option String := none
  PrepareExportPathUsingTemplate : Option Bool := none
  PrepareExportPathUsingReplace : Option Bool := none
  AppendToExisting : Option Bool := none
  FileNamePattern : Option String := none
  SplitOn : Option String := none
  RemoveFileName : Option Bool := none
  GenerateIf : Option String := none
  SkipIf : Option String := none
  Enabled : Option Bool := none
  Description : Option String := none

/-- JS `x || d` for a nullable string field with a string default. -/
def jsOrStrD (v : Option String) (d : String) : String :=
  match v with
  | some s => if s.isEmpty then d else s
  | none => d

/-- JS `x || null` for a nullable string field. -/
def jsOrNull (v : Option String) : Option String :=
  match v with
  | some s => if s.isEmpty then none else some s
  | none => none

/-- JS `x || d` for a nullable boolean field with a boolean default. -/
def jsOrBool (v : Option Bool) (d : Bool) : Bool :=
  match v with
  | some true => true
  | _ => d

/-- The `TemplateSettings` value object. -/
structure TemplateSettings where
  target : String
  targetItem : String
  targetProperty : String
  modelProperty : String
  targetItemNameProperty : String
  exportPath : Option String
  prepareExportPathUsingTemplate : Bool
  prepareExportPathUsingReplace : Bool
  appendToExisting : Bool
  fileNamePattern : Option String
  splitOn : Option String
  removeFileName : Bool
  generateIf : Option String
  skipIf : Option String
  enabled : Bool
  description : Option String

/-- The `TemplateSettings` constructor. -/
def mkTemplateSettings (d : InitialData) : TemplateSettings where
  target := jsOrStrD d.Target "Model"
  targetItem := jsOrStrD d.TargetItem "item"
  targetProperty := jsOrStrD d.TargetProperty "target"
  modelProperty := jsOrStrD d.ModelProperty "model"
  targetItemNameProperty := jsOrStrD d.TargetItemNameProperty "Name"
  exportPath := jsOrNull d.ExportPath
  prepareExportPathUsingTemplate := jsOrBool d.PrepareExportPathUsingTemplate true
  prepareExportPathUsingReplace := jsOrBool d.PrepareExportPathUsingReplace false
  appendToExisting := jsOrBool d.AppendToExisting false
  fileNamePattern := jsOrNull d.FileNamePattern
  splitOn := jsOrNull d.SplitOn
  removeFileName := jsOrBool d.RemoveFileName false
  generateIf := jsOrNull d.GenerateIf
  skipIf := jsOrNull d.SkipIf
  enabled := d.Enabled ≠ some false
  description := jsOrNull d.Description

/-- `TemplateSettings.getValueByPath` inner loop: sequential property lookup,
bailing out with `undefined` on a `null`/`undefined` intermediate. -/
def getByPathAux : Value → List String → Value
  | cur, [] => cur
  | cur, p :: rest =>
    if cur.isNull || cur.isUndefined then .vUndefined
    else getByPathAux (getProp cur p) rest

/-- `TemplateSettings.getValueByPath(obj, path)`. -/
def getValueByPath (obj : Value) (path : String) : Value :=
  if !jsTruthy obj || path.isEmpty then .vUndefined
  else getByPathAux obj (jsSplit path ".")

/-- Literal coercion of the expected-value token(s) of a condition
expression. -/
def parseExpected (ev : String) : Value :=
  if ev = "true" then .vBool true
  else if ev = "false" then .vBool false
  else if ev = "null" then .vNull
  else if ev = "undefined" then .vUndefined
  else
    match strToNumber ev with
    | some n => .vNum n
    | none => .vStr ev

/-- The operator dispatch of `evaluateCondition`; `none` marks an unknown
operator (the `default` case of the switch). -/
def evalOp (rt : Runtime) (opLower : String) (actual expected : Value) : Option Bool :=
  if opLower = "eq" ∨ opLower = "==" ∨ opLower = "===" then
    some (looseEq actual expected)
  else if opLower = "ne" ∨ opLower = "!=" ∨ opLower = "!==" then
    some (!looseEq actual expected)
  else if opLower = "gt" ∨ opLower = ">" then
    some ((jsLess expected actual).getD false)
  else if opLower = "lt" ∨ opLower = "<" then
    some ((jsLess actual expected).getD false)
  else if opLower = "gte" ∨ opLower = "ge" ∨ opLower = ">=" then
    some (match jsLess actual expected with
          | some r => !r
          | none => false)
  else if opLower = "lte" ∨ opLower = "le" ∨ opLower = "<=" then
    some (match jsLess expected actual with
          | some r => !r
          | none => false)
  else if opLower = "contains" then
    some (jsIncludes (jsToString actual) (jsToString expected))
  else if opLower = "startswith" then
    some (jsStartsWith (jsToString actual) (jsToString expected))
  else if opLower = "endswith" then
    some (jsEndsWith (jsToString actual) (jsToString expected))
  else if opLower = "matches" then
    some ((rt.regexExec (jsToString expected) (jsToString actual)).isSome)
  else if opLower = "exists" then
    some (!actual.isUndefined && !actual.isNull)
  else if opLower = "empty" then
    some (!jsTruthy actual ||
          (match actual with
           | .vArr xs => xs.isEmpty
           | _ => false))
  else none

/-- `TemplateSettings.evaluateCondition(expression, context)`.  The boolean
result is paired with the list of `console.warn` diagnostics the call
emits. -/
def evaluateCondition (rt : Runtime) (expression : Option String) (context : Value) :
    Bool × List String :=
  match expression with
  | none => (true, [])
  | some e =>
    if e.isEmpty then (true, [])
    else
      let parts := jsSplitWs (jsTrim e)
      if parts.length < 3 then
        (true,
         ["Invalid condition expression: \"" ++ e ++
          "\". Expected format: \"path operator value\""])
      else
        let path := parts.getD 0 ""
        let op := parts.getD 1 ""
        let expectedValue := String.intercalate " " (parts.drop 2)
        let actualValue := getValueByPath context path
        match evalOp rt (toLowerStr op) actualValue (parseExpected expectedValue) with
        | some b => (b, [])
        | none => (true, ["Unknown operator: \"" ++ op ++ "\""])

/-- The `generateIf` block of `shouldGenerate`: `true` exactly when one of
its `return false` branches fires.  The first branch is the `env:` special
case (`!envValue || envValue === 'false' || envValue === '0'`), the second
the context-condition evaluation. -/
def genIfBlocked (rt : Runtime) (s : TemplateSettings) (context : Value) : Bool :=
  if optTruthy s.generateIf ∧ jsStartsWith (s.generateIf.getD "") "env:" then
    match rt.env (jsDrop (s.generateIf.getD "") 4) with
    | none => true
    | some v => v.isEmpty || v = "false" || v = "0"
  else if optTruthy s.generateIf then
    !(evaluateCondition rt s.generateIf context).1
  else false

/-- The `skipIf` block of `shouldGenerate`: `true` exactly when one of its
`return false` branches fires (`envValue && envValue !== 'false' &&
envValue !== '0'` in the `env:` case, the evaluated condition otherwise). -/
def skipIfBlocked (rt : Runtime) (s : TemplateSettings) (context : Value) : Bool :=
  if optTruthy s.skipIf then
    if jsStartsWith (s.skipIf.getD "") "env:" then
      match rt.env (jsDrop (s.skipIf.getD "") 4) with
      | none => false
      | some v => !v.isEmpty && v ≠ "false" && v ≠ "0"
    else (evaluateCondition rt s.skipIf context).1
  else false

/-- `TemplateSettings.shouldGenerate(context)`, mirroring the source's
early-return structure: the `enabled` gate, then the `generateIf` gate (with
the `env:` special case), then the `skipIf` gate (with its `env:` special
case). -/
def shouldGenerate (rt : Runtime) (s : TemplateSettings) (context : Value) : Bool :=
  if !s.enabled then false
  else if genIfBlocked rt s context then false
  else if skipIfBlocked rt s context then false
  else true

/-!  ## `TemplateResult` (lib/TemplateResult.js) and pipeline records

`TemplateResult` additionally stores `directoryPath`, derived from
`filePath` by the external `path.dirname`; it is not consumed by the
generation pipeline and is not modelled.
-/

/-- A generated artifact: `{ filePath, content, appendToExisting }`. -/
structure TemplateResult where
  filePath : String
  content : String
  appendToExisting : Bool
deriving DecidableEq

/-- An accumulated error record `{ phase, message }` (the optional `error`
cause object is a host exception and is not modelled). -/
structure GenError where
  phase : String
  message : String
deriving DecidableEq

/-- A per-item skip record `{ item, reason }`. -/
structure SkippedItem where
  item : Value
  reason : String

/-- The optional script-hook module (`N.hbs.js`): each hook is an optional
transformation function. -/
structure ScriptHooks where
  prepareModel : Option (Value → Value) := none
  prepareTarget : Option (Value → Value) := none
  prepareItem : Option (Value → Value) := none
  prepareItemModel : Option (Value → Value) := none

/-- The mutable per-call accumulation state of a template:
`_result`, `_errors`, `_skippedItems`. -/
structure GenState where
  result : List TemplateResult := []
  errors : List GenError := []
  skippedItems : List SkippedItem := []

/-- A `Template` instance.  `name` is `""` when `_name` is `null`;
`render` is the compiled Handlebars template (`this._template`); `script`
is `null` (`none`) when no `N.hbs.js` file exists. -/
structure Template where
  name : String
  settings : TemplateSettings
  script : Option ScriptHooks
  isLoaded : Bool
  render : Value → String
  result : List TemplateResult
  errors : List GenError
  skippedItems : List SkippedItem
  isGenerated : Bool

/-- `this._settings.targetProperty || 'target'`. -/
def tgtPropOf (s : TemplateSettings) : String :=
  if s.targetProperty.isEmpty then "target" else s.targetProperty

/-- `this._settings.modelProperty || 'model'`. -/
def mdlPropOf (s : TemplateSettings) : String :=
  if s.modelProperty.isEmpty then "model" else s.modelProperty

/-- `this._settings.targetItem || 'item'`. -/
def itemPropOf (s : TemplateSettings) : String :=
  if s.targetItem.isEmpty then "item" else s.targetItem

/-- `settings.targetItemNameProperty || 'Name'`. -/
def itemNamePropOf (s : TemplateSettings) : String :=
  if s.targetItemNameProperty.isEmpty then "Name" else s.targetItemNameProperty

/-- `Template._getSkipReason()`. -/
def getSkipReason (s : TemplateSettings) : String :=
  if !s.enabled then "Template is disabled"
  else if optTruthy s.generateIf then
    "GenerateIf condition not met: " ++ s.generateIf.getD ""
  else if optTruthy s.skipIf then
    "SkipIf condition met: " ++ s.skipIf.getD ""
  else "Unknown"

/-- `Template.prepareExportPath(settings, fileName, model)`.  The template
strategy's `templateModel.FileName = fileName` assignment mutates the
caller's `model` object in place whenever `model` is truthy (only when it is
falsy does `model || {}` substitute a fresh object).  The function therefore
returns the prepared path together with the post-call value of the `model`
argument's object. -/
def Template.prepareExportPath (rt : Runtime) (s : TemplateSettings)
    (fileName : Option String) (model : Value) : String × Value :=
  let nameProp := itemNamePropOf s
  let nameReplacement := "\x7b" ++ itemPropOf s ++ "." ++ nameProp ++ "\x7d"
  let path0 := s.exportPath.getD ""
  let path1 :=
    if s.prepareExportPathUsingReplace then
      let p :=
        match fileName with
        | some f => if !f.isEmpty then jsReplaceFirst path0 "\x7bFileName\x7d" f else path0
        | none => path0
      let nv := getProp model nameProp
      if jsTruthy model ∧ jsTruthy nv ∧ ¬jsIsEmptyVal nv then
        jsReplaceFirst p nameReplacement (jsToString nv)
      else p
    else path0
  if s.prepareExportPathUsingTemplate then
    if jsTruthy model then
      let model' :=
        match fileName with
        | some f => if !f.isEmpty then setProp model "FileName" (.vStr f) else model
        | none => model
      (rt.hbRender path1 model', model')
    else
      let tm :=
        match fileName with
        | some f =>
          if !f.isEmpty then setProp (Value.vObj []) "FileName" (.vStr f) else Value.vObj []
        | none => Value.vObj []
      (rt.hbRender path1 tm, model)
  else (path1, model)

/-- `Template._extractFileNameFromSection(section, defaultFileName)`:
returns the updated error state together with the extracted file name and
the whitespace-trimmed (and possibly marker-stripped) section body. -/
def extractFileNameFromSection (rt : Runtime) (s : TemplateSettings)
    (st : GenState) (sect : String) (defaultFileName : String) :
    GenState × String × String :=
  match s.fileNamePattern with
  | some p =>
    if p.isEmpty then (st, defaultFileName, jsTrim sect)
    else
      let failed : GenState × String × String :=
        ({ st with
            errors := st.errors ++
              [⟨"generate",
                "FileNamePattern \"" ++ p ++
                "\" did not match in section. Using default: " ++ defaultFileName⟩] },
         defaultFileName, jsTrim sect)
      match rt.regexExec p sect with
      | some m =>
        match m.groupFileName with
        | some fn =>
          if fn.isEmpty then failed
          else
            let sect' := if s.removeFileName then jsReplaceFirst sect m.fullMatch "" else sect
            (st, fn, jsTrim sect')
        | none => failed
      | none => failed
  | none => (st, defaultFileName, jsTrim sect)

/-- The loop body of `Template._processSplitContent`, recursing over the
split sections while carrying the running section index.  The `model` object
threads through the iterations because each retained section's
`prepareExportPath` call mutates it in place (each section overwrites the
previous section's `FileName`); the final value of the object is returned
alongside the accumulation state. -/
def processSplitSections (rt : Runtime) (s : TemplateSettings) (namePfx : String) :
    GenState → Value → Nat → List String → GenState × Value
  | st, model, _, [] => (st, model)
  | st, model, index, sect :: rest =>
    if (jsTrim sect).isEmpty then
      processSplitSections rt s namePfx st model (index + 1) rest
    else
      let defaultFileName := namePfx ++ "-" ++ toString index
      let ex := extractFileNameFromSection rt s st sect defaultFileName
      let pr := Template.prepareExportPath rt s (some ex.2.1) model
      let r : TemplateResult := ⟨pr.1, ex.2.2, s.appendToExisting⟩
      processSplitSections rt s namePfx
        { ex.1 with result := ex.1.result ++ [r] } pr.2 (index + 1) rest

/-- `Template._processSplitContent(content, model, namePrefix)`: returns the
updated accumulation state and the post-call value of the `model` object. -/
def processSplitContent (rt : Runtime) (s : TemplateSettings) (st : GenState)
    (content : String) (model : Value) (namePfx : String) : GenState × Value :=
  processSplitSections rt s namePfx st model 0 (jsSplit content (s.splitOn.getD ""))

/-- Spec-side normal form of the split loop: one step per retained
(enumerated) section, producing that section's result and the model object
as mutated by its `prepareExportPath` call. -/
def splitSpec (rt : Runtime) (s : TemplateSettings) (namePfx : String) :
    Value → List (Nat × String) → List TemplateResult × Value
  | model, [] => ([], model)
  | model, q :: rest =>
    let ex := extractFileNameFromSection rt s {} q.2 (namePfx ++ "-" ++ toString q.1)
    let pr := Template.prepareExportPath rt s (some ex.2.1) model
    let tail := splitSpec rt s namePfx pr.2 rest
    (⟨pr.1, ex.2.2, s.appendToExisting⟩ :: tail.1, tail.2)

/-- Runs an optional script hook: absent hooks are skipped, and a hook
returning `null` raises the given fatal error (`throw new Error(msg)`). -/
def runHook (hook : Option (Value → Value)) (v : Value) (msg : String) :
    Except String Value :=
  match hook with
  | some h =>
    let r := h v
    if r.isNull then .error msg else .ok r
  | none => .ok v

/-- The per-item context object `itemModel`:
`{ [targetProperty]: target, [modelProperty]: model, [targetItem]: item }`. -/
def itemModelOf (s : TemplateSettings) (model target item : Value) : Value :=
  .vObj (setField (setField (setField [] (tgtPropOf s) target) (mdlPropOf s) model)
          (itemPropOf s) item)

/-- One iteration of `generate`'s array loop: hook the item, build and hook
the item model, evaluate the per-item condition gate, render, and either
collect a result, collect split results, or record a skip.  A hook returning
`null` aborts with the pending state and the thrown message. -/
def generateItem (rt : Runtime) (tName : String) (s : TemplateSettings)
    (script : Option ScriptHooks) (render : Value → String)
    (model target : Value) (st : GenState) (item : Value) :
    Except (GenState × String) GenState :=
  match runHook (script.bind (·.prepareItem)) item
      "Prepare Item script did not return a valid item." with
  | .error m => .error (st, m)
  | .ok processedItem =>
    match runHook (script.bind (·.prepareItemModel))
        (itemModelOf s model target processedItem)
        "Prepare Item Model script did not return a valid item model." with
    | .error m => .error (st, m)
    | .ok processedItemModel =>
      let context := Value.vObj (spreadFields (setField [] "Model" model) processedItemModel)
      if !shouldGenerate rt s context then
        .ok { st with skippedItems := st.skippedItems ++ [⟨processedItem, getSkipReason s⟩] }
      else
        let content := render processedItemModel
        if !optTruthy s.splitOn then
          -- fileName is null here, so prepareExportPath performs no mutation
          .ok { st with result := st.result ++
                  [⟨(Template.prepareExportPath rt s none processedItemModel).1, content,
                    s.appendToExisting⟩] }
        else
          let nm := getProp processedItem "Name"
          let namePfx := tName ++ "-" ++ (if jsTruthy nm then jsToString nm else "item")
          -- the itemModel object is created afresh this iteration (or is the
          -- prepareItemModel hook's output, treated as fresh) and is not
          -- referenced after the split processing, so its final mutated
          -- value is dropped here
          .ok (processSplitContent rt s st content processedItemModel namePfx).1

/-- `generate`'s `for (const item of target)` loop; stops at the first thrown
hook error, keeping the state accumulated so far. -/
def generateLoop (rt : Runtime) (tName : String) (s : TemplateSettings)
    (script : Option ScriptHooks) (render : Value → String)
    (model target : Value) : GenState → List Value → GenState × Option String
  | st, [] => (st, none)
  | st, item :: rest =>
    match generateItem rt tName s script render model target st item with
    | .error em => (em.1, some em.2)
    | .ok st' => generateLoop rt tName s script render model target st' rest

/-- Outcome of a `generate(model)` call: a thrown exception, the
`{ skipped: true, reason }` return value, or normal completion
(`undefined`). -/
inductive GenOutcome where
  | thrown (msg : String)
  | skippedResult (reason : String)
  | completed
deriving DecidableEq

/-- Computes the caller-visible post-call value of the model object after
the non-array split branch mutated `target` in place.  Reference identity is
not otherwise representable in the value model, so the aliasing chain of the
source is followed structurally: with no `prepareModel`/`prepareTarget` hook
interposed, `target` is the caller's model itself (whole-model selection) or
the object stored under `settings.target`, and the caller observes the
mutation; a hook's output is treated as a fresh object, leaving the caller's
object untouched. -/
def writeBackTarget (s : TemplateSettings) (script : Option ScriptHooks)
    (model target0 tgtAfter : Value) : Value :=
  if (script.bind (·.prepareModel)).isSome ∨ (script.bind (·.prepareTarget)).isSome then
    model
  else if ¬s.target.isEmpty ∧ s.target ≠ "Model" then
    match target0 with
    | .vObj _ => setProp model s.target tgtAfter
    | _ => model
  else tgtAfter

/-- The body of `Template.generate(model)` after the state reset, computed
from the template's immutable fields.  Returns the new accumulation state,
the new `_isGenerated` flag (`none` leaves it untouched, as a throw does),
the call outcome, and the caller-visible post-call value of the `model`
argument's object (mutated only by the non-array split branch; the
per-item `itemModel` objects of the array branch are fresh each iteration
and never reachable from the caller's model). -/
def generateCore (rt : Runtime) (tName : String) (s : TemplateSettings)
    (script : Option ScriptHooks) (isLoaded : Bool) (render : Value → String)
    (model : Value) : GenState × Option Bool × GenOutcome × Value :=
  let st : GenState := {}
  if !isLoaded then
    (st, none,
     .thrown ("Template \"" ++ (if tName.isEmpty then "unknown" else tName) ++
       "\" is not loaded. Check errors property for details."),
     model)
  else if !s.enabled then
    (st, some false, .skippedResult "Template is disabled", model)
  else
    match runHook (script.bind (·.prepareModel)) model
        "Prepare Model script did not return a valid model." with
    | .error m => (st, none, .thrown m, model)
    | .ok model' =>
      let target0 :=
        if ¬s.target.isEmpty ∧ s.target ≠ "Model" then getProp model' s.target else model'
      match runHook (script.bind (·.prepareTarget)) target0
          "Prepare Target script did not return a valid target." with
      | .error m => (st, none, .thrown m, model)
      | .ok target =>
        match target with
        | .vArr items =>
          match generateLoop rt tName s script render model' (.vArr items) st items with
          | (st', some m) => (st', none, .thrown m, model)
          | (st', none) => (st', some true, .completed, model)
        | target =>
          let context := Value.vObj
            (setField (setField (setField [] "Model" model') (mdlPropOf s) model')
              (tgtPropOf s) target)
          if !shouldGenerate rt s context then
            (st, some false, .skippedResult (getSkipReason s), model)
          else
            let content := render target
            if !optTruthy s.splitOn then
              -- fileName is null here, so prepareExportPath performs no mutation
              ({ st with result :=
                  [⟨(Template.prepareExportPath rt s none target).1, content,
                    s.appendToExisting⟩] },
               some true, .completed, model)
            else
              let pr := processSplitContent rt s st content target tName
              (pr.1, some true, .completed, writeBackTarget s script model target0 pr.2)

/-- `Template.generate(model)` with the full caller-visible effect: resets
`_result`, `_errors` and `_skippedItems`, runs the pipeline, and returns the
updated template, the call outcome, and the post-call value of the caller's
`model` object (which the non-array split path mutates in place). -/
def Template.generateFull (rt : Runtime) (t : Template) (model : Value) :
    Template × GenOutcome × Value :=
  let r := generateCore rt t.name t.settings t.script t.isLoaded t.render model
  ({ t with
      result := r.1.result
      errors := r.1.errors
      skippedItems := r.1.skippedItems
      isGenerated := r.2.1.getD t.isGenerated },
   r.2.2.1, r.2.2.2)

/-- `Template.generate(model)`: the template update and return value of a
call (the in-place model mutation is reported by `Template.generateFull`). -/
def Template.generate (rt : Runtime) (t : Template) (model : Value) :
    Template × GenOutcome :=
  ((Template.generateFull rt t model).1, (Template.generateFull rt t model).2.1)

/-!  ## Spec-side condition-gate definitions (for the refinement claim C2)

The following definitions are written from the specification's words, not
from the source, to be compared with `shouldGenerate`: the claimed gate
composition "enabled AND generateIf passes AND NOT skipIf", with the `env:`
prefix decided by the named environment variable.
-/

/-- Modelled from the spec: "true iff process environment variable is set to
a value other than absent/`"false"`/`"0"`" - the claim's literal reading,
under which a variable set to the empty string passes. -/
def envSetClaimed (rt : Runtime) (varName : String) : Bool :=
  match rt.env varName with
  | none => false
  | some v => v ≠ "false" && v ≠ "0"

/-- The amended reading of the `env:` gate: the variable is set to a
non-empty value other than `"false"` or `"0"`. -/
def envSetAmended (rt : Runtime) (varName : String) : Bool :=
  match rt.env varName with
  | none => false
  | some v => !v.isEmpty && v ≠ "false" && v ≠ "0"

/-- Spec-side "the generateIf condition passes", parameterised by the
reading of the `env:` gate. -/
def specGenPass (envGate : Runtime → String → Bool) (rt : Runtime)
    (s : TemplateSettings) (ctx : Value) : Bool :=
  match s.generateIf with
  | none => true
  | some g =>
    if jsStartsWith g "env:" then envGate rt (jsDrop g 4)
    else (evaluateCondition rt (some g) ctx).1

/-- Spec-side "the skipIf condition triggers", parameterised by the reading
of the `env:` gate. -/
def specSkipTrig (envGate : Runtime → String → Bool) (rt : Runtime)
    (s : TemplateSettings) (ctx : Value) : Bool :=
  match s.skipIf with
  | none => false
  | some sk =>
    if jsStartsWith sk "env:" then envGate rt (jsDrop sk 4)
    else (evaluateCondition rt (some sk) ctx).1

/-- Spec-side gate composition:
enabled AND generateIf passes AND NOT skipIf triggers. -/
def specShouldGenerate (envGate : Runtime → String → Bool) (rt : Runtime)
    (s : TemplateSettings) (ctx : Value) : Bool :=
  s.enabled && specGenPass envGate rt s ctx && !specSkipTrig envGate rt s ctx

/-!  ## Concrete instances used by witness theorems -/

/-- A runtime whose environment has `GH_FLAG` set to the empty string. -/
def rtEnvEmpty : Runtime :=
  ⟨fun _ _ => none, fun p _ => p, fun n => if n = "GH_FLAG" then some "" else none⟩

/-- Settings gated on `env:GH_FLAG`. -/
def sEnvC2 : TemplateSettings := mkTemplateSettings { GenerateIf := some "env:GH_FLAG" }

/-- Settings with a split marker and a filename pattern configured. -/
def sSplitW : TemplateSettings :=
  mkTemplateSettings
    { ExportPath := some "p", SplitOn := some "##", FileNamePattern := some "pat" }

/-- Settings of the non-idempotence scenario: whole-model target with a
split marker and no filename pattern. -/
def sMutW : TemplateSettings :=
  mkTemplateSettings { ExportPath := some "out", SplitOn := some "##" }

/-- A compiled template behaving like `A ##{{FileName}}## B` (a missing
`FileName` renders as the empty string, as in Handlebars). -/
def renderMutW : Value → String := fun v =>
  "A ##" ++
    (match getProp v "FileName" with
     | .vStr s => s
     | _ => "") ++ "## B"

/-- The loaded non-idempotence scenario template. -/
def tmplMutW : Template :=
  ⟨"tpl", sMutW, none, true, renderMutW, [], [], [], false⟩

/-- A black-box runtime whose path renderer returns its source unchanged. -/
def rtW : Runtime := ⟨fun _ _ => none, fun p _ => p, fun _ => none⟩

/-- Settings of the round-trip scenario: iterate `Items`. -/
def settingsW : TemplateSettings :=
  mkTemplateSettings { Target := some "Items", ExportPath := some "./out.txt" }

/-- A compiled template rendering `item.Name`. -/
def renderW : Value → String := fun v => jsToString (getProp (getProp v "item") "Name")

/-- A loaded two-item scenario template. -/
def tmplW : Template :=
  ⟨"tpl", settingsW, none, true, renderW, [], [], [], false⟩

/-- The round-trip model `{Items: [{Name: "A"}, {Name: "B"}]}`. -/
def modelW : Value :=
  .vObj [("Items", .vArr [.vObj [("Name", .vStr "A")], .vObj [("Name", .vStr "B")]])]

/-- A loaded template whose settings are disabled. -/
def tmplDisabledW : Template :=
  ⟨"tpl", mkTemplateSettings { ExportPath := some "p", Enabled := some false },
   none, true, renderW, [], [], [], false⟩

/-- An unloaded template carrying a load-phase error record. -/
def tmplUnloadedW : Template :=
  ⟨"tpl", settingsW, none, false, renderW, [],
   [⟨"load", "Failed to load template \"tpl\": boom"⟩], [], false⟩

/-- A second unloaded template with load errors. -/
def tmplUnloadedW2 : Template :=
  ⟨"other", settingsW, none, false, renderW, [],
   [⟨"load", "Failed to load template \"other\": missing settings"⟩], [], false⟩

/-- A script module whose `prepareItem` hook always returns `null`. -/
def hooksNullW : ScriptHooks := { prepareItem := some (fun _ => .vNull) }

/-- The two-item scenario template equipped with the null-returning hook. -/
def tmplHookW : Template :=
  ⟨"tpl", settingsW, some hooksNullW, true, renderW, [], [], [], false⟩

/-!  ## Shared helper lemmas -/

theorem runHook_none (v : Value) (msg : String) : runHook none v msg = .ok v := rfl

theorem shouldGenerate_of_no_conditions (rt : Runtime) (s : TemplateSettings)
    (ctx : Value) (hE : s.enabled = true) (hg : s.generateIf = none)
    (hsk : s.skipIf = none) : shouldGenerate rt s ctx = true := by
  simp [shouldGenerate, genIfBlocked, skipIfBlocked, hE, hg, hsk, optTruthy]

/-!  ## Claim theorems -/

/-- Claim C9: for every settings JSON input - including one that sets
`PrepareExportPathUsingTemplate` to `false` explicitly - the constructed
`TemplateSettings` has `prepareExportPathUsingTemplate == true`: the
logical-or default substitution with default `true` can never be turned
off. -/
theorem mkTemplateSettings_template_strategy_always_on (d : InitialData) :
    (mkTemplateSettings d).prepareExportPathUsingTemplate = true := by
  show jsOrBool d.PrepareExportPathUsingTemplate true = true
  unfold jsOrBool
  rcases d.PrepareExportPathUsingTemplate with _ | b
  · rfl
  · cases b <;> rfl

/-- Claim C4: for every loaded template whose settings are disabled, and any
model, `generate` returns the `{skipped: true}` signal with the "disabled"
reason and leaves zero results, touching neither the model, the hooks, nor
the renderer (the right-hand side mentions none of them). -/
theorem generate_disabled_short_circuit (rt : Runtime) (t : Template) (model : Value)
    (hL : t.isLoaded = true) (hE : t.settings.enabled = false) :
    Template.generate rt t model =
      ({ t with result := [], errors := [], skippedItems := [], isGenerated := false },
       .skippedResult "Template is disabled") := by
  simp [Template.generate, Template.generateFull, generateCore, hL, hE]

/-- Witness for C4 at a concrete disabled template. -/
theorem generate_disabled_short_circuit_witness :
    tmplDisabledW.isLoaded = true ∧ tmplDisabledW.settings.enabled = false ∧
    Template.generate rtW tmplDisabledW modelW =
      ({ tmplDisabledW with
          result := [], errors := [], skippedItems := [], isGenerated := false },
       .skippedResult "Template is disabled") :=
  ⟨rfl, by decide,
   generate_disabled_short_circuit rtW tmplDisabledW modelW rfl (by decide)⟩

/-- Claim C7: calling `generate` on a template with `isLoaded == false`
throws (outcome `thrown`, not an accumulated error record) and produces no
results. -/
theorem generate_not_loaded_throws (rt : Runtime) (t : Template) (model : Value)
    (hL : t.isLoaded = false) :
    Template.generate rt t model =
      ({ t with result := [], errors := [], skippedItems := [] },
       .thrown ("Template \"" ++ (if t.name.isEmpty then "unknown" else t.name) ++
         "\" is not loaded. Check errors property for details.")) := by
  simp [Template.generate, Template.generateFull, generateCore, hL]

/-- Witness for C7 at a concrete unloaded template. -/
theorem generate_not_loaded_throws_witness :
    tmplUnloadedW2.isLoaded = false ∧
    Template.generate rtW tmplUnloadedW2 modelW =
      ({ tmplUnloadedW2 with result := [], errors := [], skippedItems := [] },
       .thrown ("Template \"" ++
         (if tmplUnloadedW2.name.isEmpty then "unknown" else tmplUnloadedW2.name) ++
         "\" is not loaded. Check errors property for details.")) :=
  ⟨rfl, generate_not_loaded_throws rtW tmplUnloadedW2 modelW rfl⟩

/-- Claim C10: `generate` on an unloaded template resets the accumulated
error list (including the load-phase records) before throwing, so after the
throw the `errors` property is empty even though the thrown message directs
the caller to check it. -/
theorem generate_not_loaded_clears_errors (rt : Runtime) (t : Template) (model : Value)
    (hL : t.isLoaded = false) :
    (Template.generate rt t model).1.errors = [] ∧
    (Template.generate rt t model).2 =
      .thrown ("Template \"" ++ (if t.name.isEmpty then "unknown" else t.name) ++
        "\" is not loaded. Check errors property for details.") := by
  constructor <;> simp [Template.generate, Template.generateFull, generateCore, hL]

/-- Witness for C10: the load error present before the call is gone after
it. -/
theorem generate_not_loaded_clears_errors_witness :
    tmplUnloadedW.isLoaded = false ∧ tmplUnloadedW.errors ≠ [] ∧
    (Template.generate rtW tmplUnloadedW modelW).1.errors = [] ∧
    (Template.generate rtW tmplUnloadedW modelW).2 =
      .thrown ("Template \"" ++
        (if tmplUnloadedW.name.isEmpty then "unknown" else tmplUnloadedW.name) ++
        "\" is not loaded. Check errors property for details.") :=
  ⟨rfl, by decide,
   (generate_not_loaded_clears_errors rtW tmplUnloadedW modelW rfl).1,
   (generate_not_loaded_clears_errors rtW tmplUnloadedW modelW rfl).2⟩

/-- Counterexample to claim C8 as stated: on the whole-model split template
`A ##{{FileName}}## B` with model `{}`, the first `generate` call renders a
blank middle section (two results) but leaves `FileName` written onto the
caller's model object; the second call on that same object renders a
non-blank middle section and yields three results - the ordered result
lists differ. -/
theorem generate_not_idempotent_counterexample :
    tmplMutW.isLoaded = true ∧
    (Template.generate rtW tmplMutW (.vObj [])).1.result.length = 2 ∧
    (Template.generate rtW
        (Template.generate rtW tmplMutW (.vObj [])).1
        (Template.generateFull rtW tmplMutW (.vObj [])).2.2).1.result.length = 3 := by
  refine ⟨rfl, ?_, ?_⟩ <;> decide

/-- Claim C8 (amended): with fixed template, settings, hooks and runtime,
and no `splitOn` configured, a `generate(model)` call leaves the caller's
model object unchanged, and calling again produces the identical ordered
result list and outcome (the pipeline resets its result, error and skip
state at call start and reads none of the mutable template fields).  With a
split marker the non-array path mutates the caller's model in place, which
the counterexample shows can change the second call's results. -/
theorem generate_idempotent_no_split (rt : Runtime) (t : Template) (model : Value)
    (hL : t.isLoaded = true) (hsplit : t.settings.splitOn = none) :
    (Template.generateFull rt t model).2.2 = model ∧
    (Template.generate rt (Template.generate rt t model).1 model).1.result =
      (Template.generate rt t model).1.result ∧
    (Template.generate rt (Template.generate rt t model).1 model).2 =
      (Template.generate rt t model).2 := by
  refine ⟨?_, rfl, rfl⟩
  unfold Template.generateFull generateCore
  simp only [hsplit, optTruthy]
  repeat' split
  all_goals first
  | rfl
  | simp_all

/-- Witness for the amended C8 on the concrete round-trip template. -/
theorem generate_idempotent_no_split_witness :
    tmplW.isLoaded = true ∧ tmplW.settings.splitOn = none ∧
    ((Template.generateFull rtW tmplW modelW).2.2 = modelW ∧
     (Template.generate rtW (Template.generate rtW tmplW modelW).1 modelW).1.result =
      (Template.generate rtW tmplW modelW).1.result ∧
     (Template.generate rtW (Template.generate rtW tmplW modelW).1 modelW).2 =
      (Template.generate rtW tmplW modelW).2) :=
  ⟨rfl, by decide, generate_idempotent_no_split rtW tmplW modelW rfl (by decide)⟩

theorem generateLoop_no_script (rt : Runtime) (tName : String) (s : TemplateSettings)
    (render : Value → String) (model target : Value)
    (hE : s.enabled = true) (hg : s.generateIf = none) (hsk : s.skipIf = none)
    (hsplit : s.splitOn = none) (items : List Value) :
    ∀ st : GenState,
      generateLoop rt tName s none render model target st items =
        ({ st with result := st.result ++ items.map (fun item =>
            ⟨(Template.prepareExportPath rt s none (itemModelOf s model target item)).1,
             render (itemModelOf s model target item), s.appendToExisting⟩) }, none) := by
  induction items with
  | nil => intro st; simp [generateLoop]
  | cons item rest ih =>
    intro st
    have hsg := shouldGenerate_of_no_conditions rt s
      (Value.vObj (spreadFields (setField [] "Model" model) (itemModelOf s model target item)))
      hE hg hsk
    rw [generateLoop]
    simp only [generateItem, Option.none_bind, runHook_none, hsplit, optTruthy]
    simp [hsg, ih, List.append_assoc]

/-- Claim C1: for a model whose resolved target is an array, with no
`splitOn`, no `generateIf`, no `skipIf` and no script hooks, `generate`
completes and produces exactly one result per array element, in the array's
original order, each rendering that element's item model. -/
theorem generate_array_fanout (rt : Runtime) (t : Template) (model : Value)
    (items : List Value)
    (hL : t.isLoaded = true) (hE : t.settings.enabled = true)
    (hsplit : t.settings.splitOn = none) (hg : t.settings.generateIf = none)
    (hsk : t.settings.skipIf = none) (hscript : t.script = none)
    (htgt : (if ¬t.settings.target.isEmpty ∧ t.settings.target ≠ "Model"
             then getProp model t.settings.target else model) = .vArr items) :
    Template.generate rt t model =
      ({ t with
          result := items.map (fun item =>
            ⟨(Template.prepareExportPath rt t.settings none
                (itemModelOf t.settings model (.vArr items) item)).1,
             t.render (itemModelOf t.settings model (.vArr items) item),
             t.settings.appendToExisting⟩),
          errors := [], skippedItems := [], isGenerated := true },
       .completed) := by
  have hloop := generateLoop_no_script rt t.name t.settings t.render model (.vArr items)
    hE hg hsk hsplit items {}
  simp only [Template.generate, Template.generateFull, generateCore, hL, hE, hscript,
    Option.none_bind, runHook_none, Bool.not_true, if_false, htgt, hloop]
  rfl

/-- Witness for C1 on the round-trip scenario
`{Items: [{Name: "A"}, {Name: "B"}]}`. -/
theorem generate_array_fanout_witness :
    tmplW.isLoaded = true ∧ tmplW.settings.enabled = true ∧
    tmplW.settings.splitOn = none ∧ tmplW.settings.generateIf = none ∧
    tmplW.settings.skipIf = none ∧ tmplW.script = none ∧
    (if ¬tmplW.settings.target.isEmpty ∧ tmplW.settings.target ≠ "Model"
     then getProp modelW tmplW.settings.target else modelW) =
      .vArr [.vObj [("Name", .vStr "A")], .vObj [("Name", .vStr "B")]] ∧
    Template.generate rtW tmplW modelW =
      ({ tmplW with
          result := [.vObj [("Name", .vStr "A")], .vObj [("Name", .vStr "B")]].map
            (fun item =>
              ⟨(Template.prepareExportPath rtW tmplW.settings none
                  (itemModelOf tmplW.settings modelW
                    (.vArr [.vObj [("Name", .vStr "A")], .vObj [("Name", .vStr "B")]]) item)).1,
               tmplW.render (itemModelOf tmplW.settings modelW
                  (.vArr [.vObj [("Name", .vStr "A")], .vObj [("Name", .vStr "B")]]) item),
               tmplW.settings.appendToExisting⟩),
          errors := [], skippedItems := [], isGenerated := true },
       .completed) :=
  ⟨rfl, by decide, by decide, by decide, by decide, rfl, rfl,
   generate_array_fanout rtW tmplW modelW _ rfl (by decide) (by decide) (by decide)
     (by decide) rfl rfl⟩

theorem generateLoop_hook_null (rt : Runtime) (tName : String) (s : TemplateSettings)
    (render : Value → String) (model target : Value) (sc : ScriptHooks)
    (h : Value → Value)
    (hE : s.enabled = true) (hg : s.generateIf = none) (hsk : s.skipIf = none)
    (hsplit : s.splitOn = none) (hpi : sc.prepareItem = some h)
    (hpim : sc.prepareItemModel = none) (pre : List Value) :
    ∀ (bad : Value) (rest : List Value) (st : GenState),
      (∀ x ∈ pre, (h x).isNull = false) → (h bad).isNull = true →
      generateLoop rt tName s (some sc) render model target st (pre ++ bad :: rest) =
        ({ st with result := st.result ++ pre.map (fun item =>
            ⟨(Template.prepareExportPath rt s none (itemModelOf s model target (h item))).1,
             render (itemModelOf s model target (h item)), s.appendToExisting⟩) },
         some "Prepare Item script did not return a valid item.") := by
  induction pre with
  | nil =>
    intro bad rest st _ hbad
    rw [List.nil_append, generateLoop]
    simp [generateItem, runHook, hpi, hbad]
  | cons p pre' ih =>
    intro bad rest st hpre hbad
    have hp : (h p).isNull = false := hpre p (by simp)
    have hsg := shouldGenerate_of_no_conditions rt s
      (Value.vObj (spreadFields (setField [] "Model" model) (itemModelOf s model target (h p))))
      hE hg hsk
    have ih' : ∀ st' : GenState,
        generateLoop rt tName s (some sc) render model target st' (pre' ++ bad :: rest) =
          ({ st' with result := st'.result ++ pre'.map (fun item =>
              ⟨(Template.prepareExportPath rt s none (itemModelOf s model target (h item))).1,
               render (itemModelOf s model target (h item)), s.appendToExisting⟩) },
           some "Prepare Item script did not return a valid item.") :=
      fun st' => ih bad rest st' (fun x hx => hpre x (by simp [hx])) hbad
    rw [List.cons_append, generateLoop]
    simp only [generateItem, runHook, hpi, hpim, Option.some_bind, hp, hsplit, optTruthy]
    simp [hsg, ih', List.append_assoc]

/-- Claim C3: on an array target, a `prepareItem` hook returning `null`
aborts the whole `generate` call with a thrown error: the offending item
contributes no result and the remaining items (`rest`, absent from the
right-hand side) are never processed.  With the null on the first of two
items (`pre = []`), zero results are collected. -/
theorem generate_prepareItem_null_aborts (rt : Runtime) (t : Template) (model : Value)
    (sc : ScriptHooks) (h : Value → Value) (pre : List Value) (bad : Value)
    (rest : List Value)
    (hL : t.isLoaded = true) (hE : t.settings.enabled = true)
    (hsplit : t.settings.splitOn = none) (hg : t.settings.generateIf = none)
    (hsk : t.settings.skipIf = none) (hscript : t.script = some sc)
    (hpm : sc.prepareModel = none) (hpt : sc.prepareTarget = none)
    (hpi : sc.prepareItem = some h) (hpim : sc.prepareItemModel = none)
    (htgt : (if ¬t.settings.target.isEmpty ∧ t.settings.target ≠ "Model"
             then getProp model t.settings.target else model) = .vArr (pre ++ bad :: rest))
    (hpre : ∀ x ∈ pre, (h x).isNull = false) (hbad : (h bad).isNull = true) :
    Template.generate rt t model =
      ({ t with
          result := pre.map (fun item =>
            ⟨(Template.prepareExportPath rt t.settings none
                (itemModelOf t.settings model (.vArr (pre ++ bad :: rest)) (h item))).1,
             t.render (itemModelOf t.settings model (.vArr (pre ++ bad :: rest)) (h item)),
             t.settings.appendToExisting⟩),
          errors := [], skippedItems := [] },
       .thrown "Prepare Item script did not return a valid item.") := by
  have hloop := generateLoop_hook_null rt t.name t.settings t.render model
    (.vArr (pre ++ bad :: rest)) sc h hE hg hsk hsplit hpi hpim pre bad rest {} hpre hbad
  simp only [Template.generate, Template.generateFull, generateCore, hL, hE, hscript,
    Option.some_bind, runHook, hpm, hpt, Bool.not_true, if_false, htgt, hloop]
  rfl

/-- Witness for C3: null on the first of two items, zero results, second
item untouched. -/
theorem generate_prepareItem_null_aborts_witness :
    tmplHookW.isLoaded = true ∧ tmplHookW.settings.enabled = true ∧
    tmplHookW.settings.splitOn = none ∧ tmplHookW.settings.generateIf = none ∧
    tmplHookW.settings.skipIf = none ∧ tmplHookW.script = some hooksNullW ∧
    hooksNullW.prepareModel = none ∧ hooksNullW.prepareTarget = none ∧
    hooksNullW.prepareItem = some (fun _ => .vNull) ∧
    hooksNullW.prepareItemModel = none ∧
    (if ¬tmplHookW.settings.target.isEmpty ∧ tmplHookW.settings.target ≠ "Model"
     then getProp modelW tmplHookW.settings.target else modelW) =
      .vArr ([] ++ .vObj [("Name", .vStr "A")] :: [.vObj [("Name", .vStr "B")]]) ∧
    Template.generate rtW tmplHookW modelW =
      ({ tmplHookW with result := [], errors := [], skippedItems := [] },
       .thrown "Prepare Item script did not return a valid item.") :=
  ⟨rfl, by decide, by decide, by decide, by decide, rfl, rfl, rfl, rfl, rfl, rfl,
   generate_prepareItem_null_aborts rtW tmplHookW modelW hooksNullW (fun _ => .vNull)
     [] (.vObj [("Name", .vStr "A")]) [.vObj [("Name", .vStr "B")]]
     rfl (by decide) (by decide) (by decide) (by decide) rfl rfl rfl rfl rfl rfl
     (fun x hx => absurd hx (List.not_mem_nil x)) rfl⟩

/-- Claim C5: `evaluateCondition` returns `true` on a `null` or empty
expression; on a malformed expression (fewer than three whitespace-separated
tokens) and on an unknown operator it also returns `true` while recording a
diagnostic - it never fails generation. -/
theorem evaluateCondition_defaults_to_true (rt : Runtime) (ctx : Value)
    (e₁ e₂ : String)
    (h₁ : e₁.isEmpty = false) (h₂ : (jsSplitWs (jsTrim e₁)).length < 3)
    (h₃ : e₂.isEmpty = false) (h₄ : ¬(jsSplitWs (jsTrim e₂)).length < 3)
    (h₅ : evalOp rt (toLowerStr ((jsSplitWs (jsTrim e₂)).getD 1 ""))
            (getValueByPath ctx ((jsSplitWs (jsTrim e₂)).getD 0 ""))
            (parseExpected (String.intercalate " " ((jsSplitWs (jsTrim e₂)).drop 2))) =
          none) :
    evaluateCondition rt none ctx = (true, []) ∧
    evaluateCondition rt (some "") ctx = (true, []) ∧
    evaluateCondition rt (some e₁) ctx =
      (true, ["Invalid condition expression: \"" ++ e₁ ++
              "\". Expected format: \"path operator value\""]) ∧
    evaluateCondition rt (some e₂) ctx =
      (true, ["Unknown operator: \"" ++ (jsSplitWs (jsTrim e₂)).getD 1 "" ++ "\""]) := by
  refine ⟨rfl, rfl, ?_, ?_⟩
  · simp [evaluateCondition, h₁, h₂]
  · simp only [List.getD_eq_getElem?_getD] at h₅
    simp [evaluateCondition, h₃, h₄, h₅]

/-- Witness for C5 at the malformed expression `"bad expr"` and the
unknown-operator expression `"a foo b"`. -/
theorem evaluateCondition_defaults_to_true_witness :
    ("bad expr".isEmpty = false) ∧
    ((jsSplitWs (jsTrim "bad expr")).length < 3) ∧
    ("a foo b".isEmpty = false) ∧
    (¬(jsSplitWs (jsTrim "a foo b")).length < 3) ∧
    (evalOp rtW (toLowerStr ((jsSplitWs (jsTrim "a foo b")).getD 1 ""))
        (getValueByPath (.vObj []) ((jsSplitWs (jsTrim "a foo b")).getD 0 ""))
        (parseExpected (String.intercalate " " ((jsSplitWs (jsTrim "a foo b")).drop 2))) =
      none) ∧
    (evaluateCondition rtW none (.vObj []) = (true, []) ∧
     evaluateCondition rtW (some "") (.vObj []) = (true, []) ∧
     evaluateCondition rtW (some "bad expr") (.vObj []) =
       (true, ["Invalid condition expression: \"bad expr\". " ++
               "Expected format: \"path operator value\""]) ∧
     evaluateCondition rtW (some "a foo b") (.vObj []) =
       (true, ["Unknown operator: \"" ++ (jsSplitWs (jsTrim "a foo b")).getD 1 "" ++ "\""])) :=
  ⟨rfl, by decide, rfl, by decide, by decide,
   evaluateCondition_defaults_to_true rtW (.vObj []) "bad expr" "a foo b"
     rfl (by decide) rfl (by decide) (by decide)⟩

/-- Counterexample to claim C2 as stated: with `GenerateIf = "env:GH_FLAG"`
and the variable set to the empty string, the claim's gate composition
("set to a value other than absent/false/0") says generation proceeds, but
`shouldGenerate` returns `false` (the code also rejects the empty value,
which is falsy in JS). -/
theorem shouldGenerate_env_empty_counterexample :
    specShouldGenerate envSetClaimed rtEnvEmpty sEnvC2 (.vObj []) = true ∧
    shouldGenerate rtEnvEmpty sEnvC2 (.vObj []) = false := by
  constructor <;> rfl

theorem jsOrNull_isEmpty_false (v : Option String) (s : String)
    (h : jsOrNull v = some s) : s.isEmpty = false := by
  rcases v with _ | t
  · exact absurd h (by simp [jsOrNull])
  · by_cases ht : t.isEmpty = true
    · exact absurd h (by simp [jsOrNull, ht])
    · have hts : t = s := by simpa [jsOrNull, ht] using h
      simp at ht
      rw [← hts]
      exact ht

theorem genIf_gate_spec (rt : Runtime) (s : TemplateSettings) (ctx : Value)
    (hgOK : ∀ g, s.generateIf = some g → g.isEmpty = false) :
    (!genIfBlocked rt s ctx) = specGenPass envSetAmended rt s ctx := by
  unfold genIfBlocked specGenPass envSetAmended
  rcases hgen : s.generateIf with _ | g
  · simp [hgen, optTruthy]
  · have hgne := hgOK g hgen
    by_cases hsw : jsStartsWith g "env:"
    · rcases henv : rt.env (jsDrop g 4) with _ | v
      · simp [hgen, optTruthy, hgne, hsw, henv]
      · simp [hgen, optTruthy, hgne, hsw, henv, Bool.not_or, decide_not]
    · simp [hgen, optTruthy, hgne, hsw]

theorem skipIf_gate_spec (rt : Runtime) (s : TemplateSettings) (ctx : Value)
    (hskOK : ∀ sk, s.skipIf = some sk → sk.isEmpty = false) :
    skipIfBlocked rt s ctx = specSkipTrig envSetAmended rt s ctx := by
  unfold skipIfBlocked specSkipTrig envSetAmended
  rcases hskip : s.skipIf with _ | sk
  · simp [hskip, optTruthy]
  · have hskne := hskOK sk hskip
    by_cases hsw : jsStartsWith sk "env:"
    · rcases henv : rt.env (jsDrop sk 4) with _ | v
      · simp [hskip, optTruthy, hskne, hsw, henv]
      · simp [hskip, optTruthy, hskne, hsw, henv]
    · simp [hskip, optTruthy, hskne, hsw]

/-- Claim C2 (amended): for every constructed settings object, context and
runtime, `shouldGenerate` equals the spec-side composition
"enabled AND generateIf passes AND NOT skipIf triggers", with an
`env:`-prefixed condition decided by the named environment variable being
set to a *non-empty* value other than `"false"` or `"0"`. -/
theorem shouldGenerate_gate_composition (rt : Runtime) (d : InitialData) (ctx : Value) :
    shouldGenerate rt (mkTemplateSettings d) ctx =
      specShouldGenerate envSetAmended rt (mkTemplateSettings d) ctx := by
  have hgen := genIf_gate_spec rt (mkTemplateSettings d) ctx
    (fun g h => jsOrNull_isEmpty_false d.GenerateIf g h)
  have hskip := skipIf_gate_spec rt (mkTemplateSettings d) ctx
    (fun sk h => jsOrNull_isEmpty_false d.SkipIf sk h)
  unfold shouldGenerate specShouldGenerate
  rw [← hgen, ← hskip]
  cases (mkTemplateSettings d).enabled <;>
    cases hb : genIfBlocked rt (mkTemplateSettings d) ctx <;>
      cases hs : skipIfBlocked rt (mkTemplateSettings d) ctx <;> simp [hb, hs]

theorem head?_dropWhile (p : Char → Bool) (l : List Char) (c : Char)
    (h : (l.dropWhile p).head? = some c) : p c = false := by
  induction l with
  | nil => simp at h
  | cons x t ih =>
    by_cases hx : p x = true
    · rw [List.dropWhile_cons, if_pos hx] at h
      exact ih h
    · rw [List.dropWhile_cons, if_neg hx] at h
      simp at h
      subst h
      simpa using hx

theorem dropWhile_eq_self_of_head (p : Char → Bool) (l : List Char)
    (h : ∀ c, l.head? = some c → p c = false) :
    l.dropWhile p = l := by
  cases l with
  | nil => rfl
  | cons x t =>
    have hx : p x = false := h x (by simp)
    rw [List.dropWhile_cons, if_neg (by simp [hx])]

theorem dropWhile_idem (p : Char → Bool) (l : List Char) :
    (l.dropWhile p).dropWhile p = l.dropWhile p :=
  dropWhile_eq_self_of_head p _ (fun c hc => head?_dropWhile p l c hc)

theorem getLast?_dropWhile (p : Char → Bool) (l : List Char)
    (h : l.dropWhile p ≠ []) : (l.dropWhile p).getLast? = l.getLast? := by
  induction l with
  | nil => simp at h
  | cons x t ih =>
    by_cases hx : p x = true
    · rw [List.dropWhile_cons, if_pos hx] at h ⊢
      have ht : t ≠ [] := by
        intro he
        rw [he] at h
        simp [List.dropWhile] at h
      rw [ih h]
      rcases t with _ | ⟨y, t'⟩
      · exact absurd rfl ht
      · rw [List.getLast?_cons_cons]
    · rw [List.dropWhile_cons, if_neg hx]

theorem trimChars_idem (cs : List Char) : trimChars (trimChars cs) = trimChars cs := by
  have h1 :
      (((cs.dropWhile Char.isWhitespace).reverse.dropWhile
        Char.isWhitespace).reverse).dropWhile Char.isWhitespace =
      ((cs.dropWhile Char.isWhitespace).reverse.dropWhile Char.isWhitespace).reverse := by
    apply dropWhile_eq_self_of_head
    intro c hc
    rw [List.head?_reverse] at hc
    by_cases hne : (cs.dropWhile Char.isWhitespace).reverse.dropWhile Char.isWhitespace = []
    · rw [hne] at hc
      simp at hc
    · rw [getLast?_dropWhile _ _ hne, List.getLast?_reverse] at hc
      exact head?_dropWhile _ _ _ hc
  unfold trimChars
  rw [h1, List.reverse_reverse, dropWhile_idem]

theorem jsTrim_idem (s : String) : jsTrim (jsTrim s) = jsTrim s :=
  congrArg String.mk (trimChars_idem s.data)

theorem extract_fst_result (rt : Runtime) (s : TemplateSettings) (st : GenState)
    (sect d : String) :
    (extractFileNameFromSection rt s st sect d).1.result = st.result := by
  unfold extractFileNameFromSection
  repeat' split
  all_goals rfl

theorem extract_snd_state_const (rt : Runtime) (s : TemplateSettings)
    (st st' : GenState) (sect d : String) :
    (extractFileNameFromSection rt s st sect d).2 =
      (extractFileNameFromSection rt s st' sect d).2 := by
  unfold extractFileNameFromSection
  repeat' split
  all_goals rfl

theorem extract_snd_trimmed (rt : Runtime) (s : TemplateSettings) (st : GenState)
    (sect d : String) :
    jsTrim (extractFileNameFromSection rt s st sect d).2.2 =
      (extractFileNameFromSection rt s st sect d).2.2 := by
  unfold extractFileNameFromSection
  repeat' split
  all_goals exact jsTrim_idem _

theorem extract_nomatch (rt : Runtime) (s : TemplateSettings) (st : GenState)
    (sect d p : String) (hp : s.fileNamePattern = some p)
    (hpe : p.isEmpty = false) (hex : rt.regexExec p sect = none) :
    extractFileNameFromSection rt s st sect d =
      ({ st with errors := st.errors ++
          [⟨"generate", "FileNamePattern \"" ++ p ++
            "\" did not match in section. Using default: " ++ d⟩] },
       d, jsTrim sect) := by
  unfold extractFileNameFromSection
  rw [hp]
  simp [hpe, hex]

theorem processSplitSections_resultSpec (rt : Runtime) (s : TemplateSettings)
    (namePfx : String) (sects : List String) :
    ∀ (st : GenState) (model : Value) (idx : Nat),
      (processSplitSections rt s namePfx st model idx sects).1.result =
        st.result ++
          (splitSpec rt s namePfx model
            ((sects.enumFrom idx).filter (fun q => !(jsTrim q.2).isEmpty))).1 := by
  induction sects with
  | nil => intro st model idx; simp [processSplitSections, List.enumFrom, splitSpec]
  | cons sect rest ih =>
    intro st model idx
    rw [processSplitSections]
    by_cases he : (jsTrim sect).isEmpty = true
    · rw [if_pos he, ih]
      simp [List.enumFrom, he]
    · rw [if_neg he, ih]
      rw [extract_snd_state_const rt s st {} sect (namePfx ++ "-" ++ toString idx)]
      simp [List.enumFrom, he, splitSpec, extract_fst_result, List.append_assoc]

theorem processSplitSections_modelSpec (rt : Runtime) (s : TemplateSettings)
    (namePfx : String) (sects : List String) :
    ∀ (st : GenState) (model : Value) (idx : Nat),
      (processSplitSections rt s namePfx st model idx sects).2 =
        (splitSpec rt s namePfx model
          ((sects.enumFrom idx).filter (fun q => !(jsTrim q.2).isEmpty))).2 := by
  induction sects with
  | nil => intro st model idx; simp [processSplitSections, List.enumFrom, splitSpec]
  | cons sect rest ih =>
    intro st model idx
    rw [processSplitSections]
    by_cases he : (jsTrim sect).isEmpty = true
    · rw [if_pos he, ih]
      simp [List.enumFrom, he]
    · rw [if_neg he, ih]
      rw [extract_snd_state_const rt s st {} sect (namePfx ++ "-" ++ toString idx)]
      simp [List.enumFrom, he, splitSpec]

/-- Claim C6: with a configured `splitOn` marker, split processing (i) keeps
exactly the sections whose trimmed body is non-empty, in order, each
yielding one result whose default filename is `"<namePrefix>-<index>"`
counted over the original slots (`splitSpec` also threads the model object
that each retained section's path-preparation call mutates in place),
(ii) always emits whitespace-trimmed section bodies, and (iii) on a
configured `fileNamePattern` that does not match a section, falls back to
the supplied default filename while recording a non-fatal diagnostic
error. -/
theorem processSplitContent_split_semantics (rt : Runtime) (s : TemplateSettings)
    (st : GenState) (content : String) (model : Value) (namePfx : String)
    (m p : String) (hm : s.splitOn = some m)
    (hp : s.fileNamePattern = some p) (hpe : p.isEmpty = false) :
    (processSplitContent rt s st content model namePfx).1.result =
      st.result ++
        (splitSpec rt s namePfx model
          ((jsSplit content m).enum.filter (fun q => !(jsTrim q.2).isEmpty))).1 ∧
    (processSplitContent rt s st content model namePfx).2 =
      (splitSpec rt s namePfx model
        ((jsSplit content m).enum.filter (fun q => !(jsTrim q.2).isEmpty))).2 ∧
    (∀ (sect d : String) (st' : GenState),
      jsTrim (extractFileNameFromSection rt s st' sect d).2.2 =
        (extractFileNameFromSection rt s st' sect d).2.2) ∧
    (∀ (sect d : String) (st' : GenState), rt.regexExec p sect = none →
      extractFileNameFromSection rt s st' sect d =
        ({ st' with errors := st'.errors ++
            [⟨"generate", "FileNamePattern \"" ++ p ++
              "\" did not match in section. Using default: " ++ d⟩] },
         d, jsTrim sect)) := by
  refine ⟨?_, ?_, ?_, ?_⟩
  · unfold processSplitContent
    rw [hm, List.enum_eq_enumFrom]
    exact processSplitSections_resultSpec rt s namePfx _ st model 0
  · unfold processSplitContent
    rw [hm, List.enum_eq_enumFrom]
    exact processSplitSections_modelSpec rt s namePfx _ st model 0
  · exact fun sect d st' => extract_snd_trimmed rt s st' sect d
  · exact fun sect d st' hex => extract_nomatch rt s st' sect d p hp hpe hex

/-- Witness for C6 on the content `"a##  ##b"` with marker `"##"` and a
never-matching pattern. -/
theorem processSplitContent_split_semantics_witness :
    sSplitW.splitOn = some "##" ∧ sSplitW.fileNamePattern = some "pat" ∧
    "pat".isEmpty = false ∧
    ((processSplitContent rtW sSplitW {} "a##  ##b" (.vObj []) "tpl").1.result =
      ([] : List TemplateResult) ++
        (splitSpec rtW sSplitW "tpl" (.vObj [])
          ((jsSplit "a##  ##b" "##").enum.filter (fun q => !(jsTrim q.2).isEmpty))).1 ∧
     (processSplitContent rtW sSplitW {} "a##  ##b" (.vObj []) "tpl").2 =
      (splitSpec rtW sSplitW "tpl" (.vObj [])
        ((jsSplit "a##  ##b" "##").enum.filter (fun q => !(jsTrim q.2).isEmpty))).2 ∧
     (∀ (sect d : String) (st' : GenState),
       jsTrim (extractFileNameFromSection rtW sSplitW st' sect d).2.2 =
         (extractFileNameFromSection rtW sSplitW st' sect d).2.2) ∧
     (∀ (sect d : String) (st' : GenState), rtW.regexExec "pat" sect = none →
       extractFileNameFromSection rtW sSplitW st' sect d =
         ({ st' with errors := st'.errors ++
             [⟨"generate", "FileNamePattern \"" ++ "pat" ++
               "\" did not match in section. Using default: " ++ d⟩] },
          d, jsTrim sect))) :=
  ⟨by decide, by decide, rfl,
   processSplitContent_split_semantics rtW sSplitW {} "a##  ##b" (.vObj []) "tpl"
     "##" "pat" (by decide) (by decide) rfl⟩

end GenHbs
